import Mathlib

/-!
Verification of the TIFF field data-type module (src/ifd/types.rs) of the
tiff-encoder repository.

The scalar TIFF types (BYTE, ASCII, SHORT, LONG, RATIONAL, SBYTE, UNDEFINED,
SSHORT, SLONG, SRATIONAL, FLOAT, DOUBLE, IFD) are embedded as Lean structures;
their id, size, write_to, values and single functions are translated from the
Rust source. Rust panics are modelled as Except errors. Machine integers are
modelled as Nat (unsigned) and Int (signed), with explicit reduction modulo
2 to the bit width where the byte encoding depends on it. The IEEE floating
point types FLOAT and DOUBLE are modelled by the raw bit pattern that their
write functions emit (a Nat below 2 to the 32 or 2 to the 64).

The EndianFile byte sink (module write) and the TiffTypeValues container
(module ifd/values) are not part of the given sources; they are modelled
from the specification, as marked on each definition.
-/

namespace Tiff

set_option autoImplicit false

/-- Modelled from the spec: the byte-order setting of the byte sink
("a single endianness setting chosen once for the whole Document").
II is little-endian, MM is big-endian, after the TIFF byte-order markers. -/
inductive Endianness where
  | II
  | MM
deriving DecidableEq

/-- Modelled from the spec: the error with which the byte sink's write fails
("fails with an IoError on the underlying destination's failure"). -/
inductive IoError where
  | writeFailed
deriving DecidableEq

/-- Modelled from the spec: the EndianFile byte sink of the missing write
module: a sequential, endianness-configurable byte writer with position
tracking and no backward seeking. The underlying fallible destination is
modelled by an optional capacity: a write that would exceed it fails. -/
structure EndianFile where
  byte_order : Endianness
  written : List Nat
  capacity : Option Nat
deriving DecidableEq

/-- Little-endian byte decomposition: w bytes of v, least significant first. -/
def bytesLE : Nat → Nat → List Nat
  | 0, _ => []
  | w + 1, v => v % 256 :: bytesLE w (v / 256)

/-- Modelled from the spec: the fixed-width encoding of a w-byte unsigned
value under a byte order, as emitted by the missing write module's
primitive writers. -/
def encodeEndian (bo : Endianness) (w v : Nat) : List Nat :=
  match bo with
  | .II => bytesLE w (v % 2 ^ (8 * w))
  | .MM => (bytesLE w (v % 2 ^ (8 * w))).reverse

/-- Modelled from the spec: writeBytes appends at the current position and
fails with an IoError on the underlying destination's failure. -/
def EndianFile.write_bytes (ef : EndianFile) (bs : List Nat) :
    Except IoError EndianFile :=
  match ef.capacity with
  | none => .ok ⟨ef.byte_order, ef.written ++ bs, none⟩
  | some c =>
    if ef.written.length + bs.length ≤ c then
      .ok ⟨ef.byte_order, ef.written ++ bs, some c⟩
    else
      .error .writeFailed

/-- Modelled from the spec: the 8-bit unsigned primitive writer. -/
def EndianFile.write_u8 (ef : EndianFile) (v : Nat) : Except IoError EndianFile :=
  ef.write_bytes (encodeEndian ef.byte_order 1 v)

/-- Modelled from the spec: the 16-bit unsigned primitive writer. -/
def EndianFile.write_u16 (ef : EndianFile) (v : Nat) : Except IoError EndianFile :=
  ef.write_bytes (encodeEndian ef.byte_order 2 v)

/-- Modelled from the spec: the 32-bit unsigned primitive writer. -/
def EndianFile.write_u32 (ef : EndianFile) (v : Nat) : Except IoError EndianFile :=
  ef.write_bytes (encodeEndian ef.byte_order 4 v)

/-- Modelled from the spec: the 8-bit signed primitive writer
(twos-complement byte pattern). -/
def EndianFile.write_i8 (ef : EndianFile) (v : Int) : Except IoError EndianFile :=
  ef.write_bytes (encodeEndian ef.byte_order 1 (v % 2 ^ 8).toNat)

/-- Modelled from the spec: the 16-bit signed primitive writer. -/
def EndianFile.write_i16 (ef : EndianFile) (v : Int) : Except IoError EndianFile :=
  ef.write_bytes (encodeEndian ef.byte_order 2 (v % 2 ^ 16).toNat)

/-- Modelled from the spec: the 32-bit signed primitive writer. -/
def EndianFile.write_i32 (ef : EndianFile) (v : Int) : Except IoError EndianFile :=
  ef.write_bytes (encodeEndian ef.byte_order 4 (v % 2 ^ 32).toNat)

/-- Modelled from the spec: the IEEE single-precision primitive writer;
the value is given by its 32-bit pattern. -/
def EndianFile.write_f32 (ef : EndianFile) (bits : Nat) : Except IoError EndianFile :=
  ef.write_bytes (encodeEndian ef.byte_order 4 bits)

/-- Modelled from the spec: the IEEE double-precision primitive writer;
the value is given by its 64-bit pattern. -/
def EndianFile.write_f64 (ef : EndianFile) (bits : Nat) : Except IoError EndianFile :=
  ef.write_bytes (encodeEndian ef.byte_order 8 bits)

/-- Validation failures of the construction API: the empty-value-set panic
of TiffTypeValues and the two non-ASCII panics of the ASCII type. -/
inductive ValidationError where
  | emptyValues
  | nonAsciiByte (b : Nat)
  | nonAsciiChar (c : Nat)
deriving DecidableEq

/-- Modelled from the spec: the TiffTypeValues container of the missing
ifd/values module, an ordered collection of same-typed scalar values. -/
structure TiffTypeValues (α : Type) where
  values : List α
deriving DecidableEq

/-- Modelled from the spec: TiffTypeValues construction fails with a
ValidationError if the value list is empty ("Empty ValueSet construction
always fails"). -/
def TiffTypeValues.new {α : Type} (vs : List α) :
    Except ValidationError (TiffTypeValues α) :=
  if vs.isEmpty then .error .emptyValues else .ok ⟨vs⟩

/-- 8-bit unsigned integer (struct BYTE(pub u8)). -/
structure BYTE where
  val : Nat
deriving DecidableEq

def BYTE.values (vs : List Nat) : Except ValidationError (TiffTypeValues BYTE) :=
  TiffTypeValues.new (vs.map BYTE.mk)

def BYTE.single (v : Nat) : Except ValidationError (TiffTypeValues BYTE) :=
  TiffTypeValues.new [BYTE.mk v]

def BYTE.id : Nat := 1

def BYTE.size : Nat := 1

def BYTE.write_to (v : BYTE) (file : EndianFile) : Except IoError EndianFile :=
  file.write_u8 v.val

/-- 8-bit byte holding a 7-bit ASCII code (struct ASCII(u8)). -/
structure ASCII where
  val : Nat
deriving DecidableEq

/-- ASCII::new: panics (modelled as an error) when the byte is 128 or more. -/
def ASCII.new (value : Nat) : Except ValidationError ASCII :=
  if 128 ≤ value then .error (.nonAsciiByte value) else .ok ⟨value⟩

/-- The collect over an iterator mapped with a fallible (panicking)
constructor: the first failure aborts the whole construction. -/
def mapOrFail {ε α β : Type} (f : α → Except ε β) : List α → Except ε (List β)
  | [] => .ok []
  | x :: xs =>
    match f x with
    | .error e => .error e
    | .ok y =>
      match mapOrFail f xs with
      | .error e => .error e
      | .ok ys => .ok (y :: ys)

/-- ASCII::values: panics on an empty slice, maps ASCII::new over the bytes,
and appends a NUL value when the last input byte is not already 0. The
NUL value is pushed as ASCII::new(0), whose range check trivially succeeds,
so it is modelled by the plain constructor. -/
def ASCII.values (bs : List Nat) : Except ValidationError (TiffTypeValues ASCII) :=
  match bs with
  | [] => .error .emptyValues
  | b :: rest =>
    match mapOrFail ASCII.new (b :: rest) with
    | .error e => .error e
    | .ok vs =>
      if (b :: rest).getLast (List.cons_ne_nil b rest) ≠ 0 then
        TiffTypeValues.new (vs ++ [ASCII.mk 0])
      else
        TiffTypeValues.new vs

/-- The character loop of ASCII::from_str: the string is modelled as the
list of its Unicode code points; a code point of 128 or more panics, the
rest are cast to bytes. -/
def asciiFromChars : List Nat → Except ValidationError (List Nat)
  | [] => .ok []
  | c :: cs =>
    if 128 ≤ c then .error (.nonAsciiChar c)
    else
      match asciiFromChars cs with
      | .error e => .error e
      | .ok bs => .ok (c % 256 :: bs)

/-- ASCII::from_str: converts the characters to bytes (panicking on a
non-ASCII character), then delegates to ASCII::values. -/
def ASCII.from_str (s : List Nat) : Except ValidationError (TiffTypeValues ASCII) :=
  match asciiFromChars s with
  | .error e => .error e
  | .ok bytes => ASCII.values bytes

def ASCII.id : Nat := 2

def ASCII.size : Nat := 1

def ASCII.write_to (v : ASCII) (file : EndianFile) : Except IoError EndianFile :=
  file.write_u8 v.val

/-- 16-bit unsigned integer (struct SHORT(pub u16)). -/
structure SHORT where
  val : Nat
deriving DecidableEq

def SHORT.values (vs : List Nat) : Except ValidationError (TiffTypeValues SHORT) :=
  TiffTypeValues.new (vs.map SHORT.mk)

def SHORT.single (v : Nat) : Except ValidationError (TiffTypeValues SHORT) :=
  TiffTypeValues.new [SHORT.mk v]

def SHORT.id : Nat := 3

def SHORT.size : Nat := 2

def SHORT.write_to (v : SHORT) (file : EndianFile) : Except IoError EndianFile :=
  file.write_u16 v.val

/-- 32-bit unsigned integer (struct LONG(pub u32)). -/
structure LONG where
  val : Nat
deriving DecidableEq

def LONG.values (vs : List Nat) : Except ValidationError (TiffTypeValues LONG) :=
  TiffTypeValues.new (vs.map LONG.mk)

def LONG.single (v : Nat) : Except ValidationError (TiffTypeValues LONG) :=
  TiffTypeValues.new [LONG.mk v]

def LONG.id : Nat := 4

def LONG.size : Nat := 4

def LONG.write_to (v : LONG) (file : EndianFile) : Except IoError EndianFile :=
  file.write_u32 v.val

/-- Two LONGs: numerator and denominator of a fraction. -/
structure RATIONAL where
  numerator : Nat
  denominator : Nat
deriving DecidableEq

def RATIONAL.values (vs : List (Nat × Nat)) :
    Except ValidationError (TiffTypeValues RATIONAL) :=
  TiffTypeValues.new (vs.map fun p => RATIONAL.mk p.1 p.2)

def RATIONAL.single (numerator denominator : Nat) :
    Except ValidationError (TiffTypeValues RATIONAL) :=
  TiffTypeValues.new [RATIONAL.mk numerator denominator]

def RATIONAL.id : Nat := 5

def RATIONAL.size : Nat := 8

/-- RATIONAL::write_to: writes the numerator, then (only if that succeeded,
mirroring the question-mark operator) the denominator. -/
def RATIONAL.write_to (v : RATIONAL) (file : EndianFile) :
    Except IoError EndianFile :=
  match file.write_u32 v.numerator with
  | .error e => .error e
  | .ok f => f.write_u32 v.denominator

/-- 8-bit signed integer (struct SBYTE(pub i8)). -/
structure SBYTE where
  val : Int
deriving DecidableEq

def SBYTE.values (vs : List Int) : Except ValidationError (TiffTypeValues SBYTE) :=
  TiffTypeValues.new (vs.map SBYTE.mk)

def SBYTE.single (v : Int) : Except ValidationError (TiffTypeValues SBYTE) :=
  TiffTypeValues.new [SBYTE.mk v]

def SBYTE.id : Nat := 6

def SBYTE.size : Nat := 1

def SBYTE.write_to (v : SBYTE) (file : EndianFile) : Except IoError EndianFile :=
  file.write_i8 v.val

/-- 8-bit byte of unconstrained content (struct UNDEFINED(pub u8)). -/
structure UNDEFINED where
  val : Nat
deriving DecidableEq

def UNDEFINED.values (vs : List Nat) :
    Except ValidationError (TiffTypeValues UNDEFINED) :=
  TiffTypeValues.new (vs.map UNDEFINED.mk)

def UNDEFINED.single (v : Nat) : Except ValidationError (TiffTypeValues UNDEFINED) :=
  TiffTypeValues.new [UNDEFINED.mk v]

def UNDEFINED.id : Nat := 7

def UNDEFINED.size : Nat := 1

def UNDEFINED.write_to (v : UNDEFINED) (file : EndianFile) :
    Except IoError EndianFile :=
  file.write_u8 v.val

/-- 16-bit signed integer (struct SSHORT(pub i16)). -/
structure SSHORT where
  val : Int
deriving DecidableEq

def SSHORT.values (vs : List Int) : Except ValidationError (TiffTypeValues SSHORT) :=
  TiffTypeValues.new (vs.map SSHORT.mk)

def SSHORT.single (v : Int) : Except ValidationError (TiffTypeValues SSHORT) :=
  TiffTypeValues.new [SSHORT.mk v]

def SSHORT.id : Nat := 8

def SSHORT.size : Nat := 2

def SSHORT.write_to (v : SSHORT) (file : EndianFile) : Except IoError EndianFile :=
  file.write_i16 v.val

/-- 32-bit signed integer (struct SLONG(pub i32)). -/
structure SLONG where
  val : Int
deriving DecidableEq

def SLONG.values (vs : List Int) : Except ValidationError (TiffTypeValues SLONG) :=
  TiffTypeValues.new (vs.map SLONG.mk)

def SLONG.single (v : Int) : Except ValidationError (TiffTypeValues SLONG) :=
  TiffTypeValues.new [SLONG.mk v]

def SLONG.id : Nat := 9

def SLONG.size : Nat := 4

def SLONG.write_to (v : SLONG) (file : EndianFile) : Except IoError EndianFile :=
  file.write_i32 v.val

/-- Two SLONGs: numerator and denominator of a fraction. -/
structure SRATIONAL where
  numerator : Int
  denominator : Int
deriving DecidableEq

def SRATIONAL.values (vs : List (Int × Int)) :
    Except ValidationError (TiffTypeValues SRATIONAL) :=
  TiffTypeValues.new (vs.map fun p => SRATIONAL.mk p.1 p.2)

def SRATIONAL.single (numerator denominator : Int) :
    Except ValidationError (TiffTypeValues SRATIONAL) :=
  TiffTypeValues.new [SRATIONAL.mk numerator denominator]

def SRATIONAL.id : Nat := 10

def SRATIONAL.size : Nat := 8

/-- SRATIONAL::write_to: numerator first, then the denominator only if the
numerator's write succeeded. -/
def SRATIONAL.write_to (v : SRATIONAL) (file : EndianFile) :
    Except IoError EndianFile :=
  match file.write_i32 v.numerator with
  | .error e => .error e
  | .ok f => f.write_i32 v.denominator

/-- IEEE single-precision value (struct FLOAT(pub f32)), represented by
its 32-bit pattern. -/
structure FLOAT where
  bits : Nat
deriving DecidableEq

def FLOAT.values (vs : List Nat) : Except ValidationError (TiffTypeValues FLOAT) :=
  TiffTypeValues.new (vs.map FLOAT.mk)

def FLOAT.single (v : Nat) : Except ValidationError (TiffTypeValues FLOAT) :=
  TiffTypeValues.new [FLOAT.mk v]

def FLOAT.id : Nat := 11

def FLOAT.size : Nat := 4

def FLOAT.write_to (v : FLOAT) (file : EndianFile) : Except IoError EndianFile :=
  file.write_f32 v.bits

/-- IEEE double-precision value (struct DOUBLE(pub f64)), represented by
its 64-bit pattern. -/
structure DOUBLE where
  bits : Nat
deriving DecidableEq

def DOUBLE.values (vs : List Nat) : Except ValidationError (TiffTypeValues DOUBLE) :=
  TiffTypeValues.new (vs.map DOUBLE.mk)

def DOUBLE.single (v : Nat) : Except ValidationError (TiffTypeValues DOUBLE) :=
  TiffTypeValues.new [DOUBLE.mk v]

def DOUBLE.id : Nat := 12

def DOUBLE.size : Nat := 8

def DOUBLE.write_to (v : DOUBLE) (file : EndianFile) : Except IoError EndianFile :=
  file.write_f64 v.bits

/-- 32-bit unsigned integer pointing to an IFD (struct IFD(pub(crate) u32)).
It has no values or single constructor in the source. -/
structure IFD where
  val : Nat
deriving DecidableEq

def IFD.id : Nat := 13

def IFD.size : Nat := 4

def IFD.write_to (v : IFD) (file : EndianFile) : Except IoError EndianFile :=
  file.write_u32 v.val

/-- A fresh big-endian file over an unbounded destination. -/
def efMM : EndianFile := ⟨Endianness.MM, [], none⟩

/-- A big-endian file that already holds two bytes, over a destination of
capacity ten. -/
def efMM2 : EndianFile := ⟨Endianness.MM, [9, 9], some 10⟩

/-- A big-endian file over a destination of capacity two: any write of more
than two bytes fails. -/
def efCap2 : EndianFile := ⟨Endianness.MM, [], some 2⟩

lemma bytesLE_length (w : Nat) : ∀ v : Nat, (bytesLE w v).length = w := by
  induction w with
  | zero => intro v; rfl
  | succ n ih => intro v; simp [bytesLE, ih]

lemma encodeEndian_length (bo : Endianness) (w v : Nat) :
    (encodeEndian bo w v).length = w := by
  cases bo <;> simp [encodeEndian, bytesLE_length]

lemma write_bytes_ok {ef : EndianFile} {bs : List Nat} {ef' : EndianFile}
    (h : ef.write_bytes bs = .ok ef') :
    ef'.written = ef.written ++ bs ∧ ef'.byte_order = ef.byte_order := by
  unfold EndianFile.write_bytes at h
  split at h
  · cases h; exact ⟨rfl, rfl⟩
  · split at h
    · cases h; exact ⟨rfl, rfl⟩
    · cases h

lemma write_bytes_drop {ef : EndianFile} {bs : List Nat} {ef' : EndianFile}
    (h : ef.write_bytes bs = .ok ef') :
    ef'.written.drop ef.written.length = bs := by
  rw [(write_bytes_ok h).1, List.drop_left]

lemma write_bytes_len {ef : EndianFile} {bs : List Nat} {ef' : EndianFile}
    (h : ef.write_bytes bs = .ok ef') :
    ef'.written.length = ef.written.length + bs.length := by
  rw [(write_bytes_ok h).1, List.length_append]

lemma rational_ok {r : RATIONAL} {ef ef' : EndianFile}
    (h : RATIONAL.write_to r ef = .ok ef') :
    ef'.written = ef.written ++ (encodeEndian ef.byte_order 4 r.numerator ++
      encodeEndian ef.byte_order 4 r.denominator) ∧
    ef'.byte_order = ef.byte_order := by
  unfold RATIONAL.write_to at h
  cases hm : ef.write_u32 r.numerator with
  | error e => rw [hm] at h; cases h
  | ok mid =>
    rw [hm] at h
    obtain ⟨hw1, hb1⟩ := write_bytes_ok hm
    obtain ⟨hw2, hb2⟩ := write_bytes_ok h
    refine ⟨?_, hb2.trans hb1⟩
    rw [hw2, hw1, hb1, List.append_assoc]

lemma srational_ok {r : SRATIONAL} {ef ef' : EndianFile}
    (h : SRATIONAL.write_to r ef = .ok ef') :
    ef'.written = ef.written ++
      (encodeEndian ef.byte_order 4 (r.numerator % 2 ^ 32).toNat ++
       encodeEndian ef.byte_order 4 (r.denominator % 2 ^ 32).toNat) ∧
    ef'.byte_order = ef.byte_order := by
  unfold SRATIONAL.write_to at h
  cases hm : ef.write_i32 r.numerator with
  | error e => rw [hm] at h; cases h
  | ok mid =>
    rw [hm] at h
    obtain ⟨hw1, hb1⟩ := write_bytes_ok hm
    obtain ⟨hw2, hb2⟩ := write_bytes_ok h
    refine ⟨?_, hb2.trans hb1⟩
    rw [hw2, hw1, hb1, List.append_assoc]

lemma new_ok {α : Type} (l : List α) (h : l ≠ []) :
    TiffTypeValues.new l = .ok ⟨l⟩ := by
  unfold TiffTypeValues.new
  rw [if_neg]
  simp [h]

lemma new_map_ok {α β : Type} (f : α → β) (v : List α) (h : v ≠ []) :
    TiffTypeValues.new (v.map f) = .ok ⟨v.map f⟩ :=
  new_ok (v.map f) (by simp [h])

lemma ascii_new_ok {b : Nat} {y : ASCII} (h : ASCII.new b = .ok y) :
    b < 128 ∧ y = ⟨b⟩ := by
  by_cases hb : 128 ≤ b
  · unfold ASCII.new at h
    rw [if_pos hb] at h
    cases h
  · unfold ASCII.new at h
    rw [if_neg hb] at h
    cases h
    exact ⟨by omega, rfl⟩

lemma mapOrFail_ascii_ok :
    ∀ {bs : List Nat} {vs : List ASCII}, mapOrFail ASCII.new bs = .ok vs →
      vs = bs.map ASCII.mk ∧ ∀ b ∈ bs, b < 128 := by
  intro bs
  induction bs with
  | nil =>
    intro vs h
    cases h
    simp
  | cons b rest ih =>
    intro vs h
    unfold mapOrFail at h
    cases hf : ASCII.new b with
    | error e => rw [hf] at h; cases h
    | ok y =>
      rw [hf] at h
      cases hr : mapOrFail ASCII.new rest with
      | error e => rw [hr] at h; cases h
      | ok ys =>
        rw [hr] at h
        cases h
        obtain ⟨hys, hlt⟩ := ih hr
        obtain ⟨hb, hy⟩ := ascii_new_ok hf
        subst hys
        subst hy
        refine ⟨by simp, ?_⟩
        intro x hx
        rcases List.mem_cons.mp hx with hx0 | hx'
        · subst hx0; exact hb
        · exact hlt x hx'

lemma asciiFromChars_ok :
    ∀ {s bs : List Nat}, asciiFromChars s = .ok bs →
      bs = s ∧ ∀ c ∈ s, c < 128 := by
  intro s
  induction s with
  | nil =>
    intro bs h
    cases h
    simp
  | cons c cs ih =>
    intro bs h
    unfold asciiFromChars at h
    by_cases hc : 128 ≤ c
    · rw [if_pos hc] at h; cases h
    · rw [if_neg hc] at h
      cases hr : asciiFromChars cs with
      | error e => rw [hr] at h; cases h
      | ok bs' =>
        rw [hr] at h
        cases h
        obtain ⟨h1, h2⟩ := ih hr
        subst h1
        have hmod : c % 256 = c := Nat.mod_eq_of_lt (by omega)
        refine ⟨by rw [hmod], ?_⟩
        intro x hx
        rcases List.mem_cons.mp hx with hx0 | hx'
        · subst hx0; omega
        · exact h2 x hx'

lemma asciiFromChars_err :
    ∀ {s : List Nat}, (∃ c ∈ s, 128 ≤ c) → ∃ e, asciiFromChars s = .error e := by
  intro s
  induction s with
  | nil =>
    intro hex
    obtain ⟨c, hc, _⟩ := hex
    cases hc
  | cons c cs ih =>
    intro hex
    by_cases hc : 128 ≤ c
    · refine ⟨.nonAsciiChar c, ?_⟩
      unfold asciiFromChars
      rw [if_pos hc]
    · obtain ⟨x, hx, hxe⟩ := hex
      rcases List.mem_cons.mp hx with hx0 | hx'
      · subst hx0; exact absurd hxe hc
      · obtain ⟨e, he⟩ := ih ⟨x, hx', hxe⟩
        refine ⟨e, ?_⟩
        unfold asciiFromChars
        rw [if_neg hc, he]

lemma ascii_values_ok :
    ∀ {bs : List Nat} {tv : TiffTypeValues ASCII}, ASCII.values bs = .ok tv →
      tv.values = (if bs.getLast? = some 0 then bs.map ASCII.mk
        else bs.map ASCII.mk ++ [ASCII.mk 0]) := by
  intro bs tv h
  cases bs with
  | nil => cases h
  | cons b rest =>
    simp only [ASCII.values] at h
    split at h
    · cases h
    · rename_i vs heq
      obtain ⟨hvs, _⟩ := mapOrFail_ascii_ok heq
      subst hvs
      split at h
      · rename_i hl
        rw [new_ok ((b :: rest).map ASCII.mk ++ [ASCII.mk 0]) (by simp)] at h
        cases h
        rw [if_neg]
        rw [List.getLast?_eq_getLast_of_ne_nil (List.cons_ne_nil b rest)]
        simp only [Option.some.injEq]
        exact hl
      · rename_i hl
        rw [new_map_ok ASCII.mk (b :: rest) (List.cons_ne_nil b rest)] at h
        cases h
        rw [if_pos]
        rw [List.getLast?_eq_getLast_of_ne_nil (List.cons_ne_nil b rest),
          not_not.mp hl]

lemma ascii_values_last {bs : List Nat} {tv : TiffTypeValues ASCII}
    (h : ASCII.values bs = .ok tv) :
    tv.values.getLast? = some (ASCII.mk 0) ∧
    tv.values.length =
      (if bs.getLast? = some 0 then bs.length else bs.length + 1) := by
  have hv := ascii_values_ok h
  by_cases hc : bs.getLast? = some 0
  · rw [if_pos hc] at hv
    rw [if_pos hc]
    constructor
    · rw [hv, List.getLast?_map, hc]
      rfl
    · rw [hv, List.length_map]
  · rw [if_neg hc] at hv
    rw [if_neg hc]
    constructor
    · rw [hv, List.getLast?_concat]
    · rw [hv]
      simp

/-- Claim C2: constructing a ValueSet from an empty collection always fails
with a ValidationError; in particular ASCII values applied to an empty byte
slice fails at the point of the call instead of returning a TiffTypeValues. -/
theorem claim_c2 :
    (∀ α : Type, TiffTypeValues.new ([] : List α) = .error .emptyValues) ∧
    ASCII.values [] = .error .emptyValues :=
  ⟨fun _ => rfl, rfl⟩

/-- Claim C3: ASCII new fails on every byte of 128 or more and succeeds,
yielding that byte, below 128; from_str fails on any string containing a
code point of 128 or more. -/
theorem claim_c3 :
    (∀ b : Nat, 128 ≤ b → ASCII.new b = .error (.nonAsciiByte b)) ∧
    (∀ b : Nat, b < 128 → ASCII.new b = .ok ⟨b⟩) ∧
    (∀ s : List Nat, (∃ c ∈ s, 128 ≤ c) → ∃ e, ASCII.from_str s = .error e) := by
  refine ⟨?_, ?_, ?_⟩
  · intro b hb
    unfold ASCII.new
    rw [if_pos hb]
  · intro b hb
    unfold ASCII.new
    rw [if_neg (by omega)]
  · intro s hs
    obtain ⟨e, he⟩ := asciiFromChars_err hs
    refine ⟨e, ?_⟩
    unfold ASCII.from_str
    rw [he]

/-- Witness for claim C3 at the bytes 200 and 65 and the string consisting
of the single code point 300. -/
theorem claim_c3_witness :
    ASCII.new 200 = .error (.nonAsciiByte 200) ∧
    ASCII.new 65 = .ok ⟨65⟩ ∧
    ∃ e, ASCII.from_str [300] = .error e :=
  ⟨claim_c3.1 200 (by decide), claim_c3.2.1 65 (by decide),
    claim_c3.2.2 [300] ⟨300, by decide⟩⟩

/-- Counterexample to claim C5 as stated: at the empty input slice, the
BYTE values constructor does not produce a TiffTypeValues of length zero
but fails with the empty-value-set ValidationError. -/
theorem claim_c5_cex :
    BYTE.values ([] : List Nat) = .error .emptyValues ∧
    ∀ tv : TiffTypeValues BYTE, BYTE.values ([] : List Nat) ≠ .ok tv := by
  constructor
  · rfl
  · intro tv h
    exact Except.noConfusion h

/-- Claim C5 (amended to nonempty inputs): for every nonempty input slice v,
each unconstrained values constructor produces a TiffTypeValues whose value
list is exactly the elementwise wrapping of v, preserving length and order. -/
theorem claim_c5 :
    (∀ v : List Nat, v ≠ [] → BYTE.values v = .ok ⟨v.map BYTE.mk⟩) ∧
    (∀ v : List Nat, v ≠ [] → SHORT.values v = .ok ⟨v.map SHORT.mk⟩) ∧
    (∀ v : List Nat, v ≠ [] → LONG.values v = .ok ⟨v.map LONG.mk⟩) ∧
    (∀ v : List (Nat × Nat), v ≠ [] →
      RATIONAL.values v = .ok ⟨v.map fun p => RATIONAL.mk p.1 p.2⟩) ∧
    (∀ v : List Int, v ≠ [] → SBYTE.values v = .ok ⟨v.map SBYTE.mk⟩) ∧
    (∀ v : List Nat, v ≠ [] → UNDEFINED.values v = .ok ⟨v.map UNDEFINED.mk⟩) ∧
    (∀ v : List Int, v ≠ [] → SSHORT.values v = .ok ⟨v.map SSHORT.mk⟩) ∧
    (∀ v : List Int, v ≠ [] → SLONG.values v = .ok ⟨v.map SLONG.mk⟩) ∧
    (∀ v : List (Int × Int), v ≠ [] →
      SRATIONAL.values v = .ok ⟨v.map fun p => SRATIONAL.mk p.1 p.2⟩) ∧
    (∀ v : List Nat, v ≠ [] → FLOAT.values v = .ok ⟨v.map FLOAT.mk⟩) ∧
    (∀ v : List Nat, v ≠ [] → DOUBLE.values v = .ok ⟨v.map DOUBLE.mk⟩) :=
  ⟨fun v h => new_map_ok BYTE.mk v h,
   fun v h => new_map_ok SHORT.mk v h,
   fun v h => new_map_ok LONG.mk v h,
   fun v h => new_map_ok (fun (p : Nat × Nat) => RATIONAL.mk p.1 p.2) v h,
   fun v h => new_map_ok SBYTE.mk v h,
   fun v h => new_map_ok UNDEFINED.mk v h,
   fun v h => new_map_ok SSHORT.mk v h,
   fun v h => new_map_ok SLONG.mk v h,
   fun v h => new_map_ok (fun (p : Int × Int) => SRATIONAL.mk p.1 p.2) v h,
   fun v h => new_map_ok FLOAT.mk v h,
   fun v h => new_map_ok DOUBLE.mk v h⟩

/-- Witness for the amended claim C5 at the two-element byte slice. -/
theorem claim_c5_witness :
    BYTE.values [1, 2] = .ok ⟨[BYTE.mk 1, BYTE.mk 2]⟩ :=
  claim_c5.1 [1, 2] (by decide)

/-- Claim C9: for every scalar type providing both constructors, single
applied to a value agrees with values applied to the one-element slice. -/
theorem claim_c9 :
    (∀ v : Nat, BYTE.single v = BYTE.values [v]) ∧
    (∀ v : Nat, SHORT.single v = SHORT.values [v]) ∧
    (∀ v : Nat, LONG.single v = LONG.values [v]) ∧
    (∀ n d : Nat, RATIONAL.single n d = RATIONAL.values [(n, d)]) ∧
    (∀ v : Int, SBYTE.single v = SBYTE.values [v]) ∧
    (∀ v : Nat, UNDEFINED.single v = UNDEFINED.values [v]) ∧
    (∀ v : Int, SSHORT.single v = SSHORT.values [v]) ∧
    (∀ v : Int, SLONG.single v = SLONG.values [v]) ∧
    (∀ n d : Int, SRATIONAL.single n d = SRATIONAL.values [(n, d)]) ∧
    (∀ v : Nat, FLOAT.single v = FLOAT.values [v]) ∧
    (∀ v : Nat, DOUBLE.single v = DOUBLE.values [v]) :=
  ⟨fun _ => rfl, fun _ => rfl, fun _ => rfl, fun _ _ => rfl, fun _ => rfl,
   fun _ => rfl, fun _ => rfl, fun _ => rfl, fun _ _ => rfl, fun _ => rfl,
   fun _ => rfl⟩

/-- Claim C10: the thirteen scalar types carry the consecutive 16-bit
type ids one through thirteen in declaration order, pairwise distinct. -/
theorem claim_c10 :
    [BYTE.id, ASCII.id, SHORT.id, LONG.id, RATIONAL.id, SBYTE.id,
      UNDEFINED.id, SSHORT.id, SLONG.id, SRATIONAL.id, FLOAT.id,
      DOUBLE.id, IFD.id] = [1, 2, 3, 4, 5, 6, 7, 8, 9, 10, 11, 12, 13] ∧
    [BYTE.id, ASCII.id, SHORT.id, LONG.id, RATIONAL.id, SBYTE.id,
      UNDEFINED.id, SSHORT.id, SLONG.id, SRATIONAL.id, FLOAT.id,
      DOUBLE.id, IFD.id].Nodup ∧
    ∀ i ∈ [BYTE.id, ASCII.id, SHORT.id, LONG.id, RATIONAL.id, SBYTE.id,
      UNDEFINED.id, SSHORT.id, SLONG.id, SRATIONAL.id, FLOAT.id,
      DOUBLE.id, IFD.id], i < 2 ^ 16 :=
  ⟨rfl, by decide, by decide⟩

/-- Claim C1: for every scalar type in the catalog and every value of that
type, a successful write_to appends exactly size bytes to the EndianFile,
with size one for BYTE, ASCII, SBYTE and UNDEFINED, two for SHORT and
SSHORT, four for LONG, SLONG, FLOAT and IFD, and eight for RATIONAL,
SRATIONAL and DOUBLE. -/
theorem claim_c1 :
    (BYTE.size = 1 ∧ ∀ (v : BYTE) (ef ef' : EndianFile),
      BYTE.write_to v ef = .ok ef' →
      ef'.written.length = ef.written.length + BYTE.size) ∧
    (ASCII.size = 1 ∧ ∀ (v : ASCII) (ef ef' : EndianFile),
      ASCII.write_to v ef = .ok ef' →
      ef'.written.length = ef.written.length + ASCII.size) ∧
    (SHORT.size = 2 ∧ ∀ (v : SHORT) (ef ef' : EndianFile),
      SHORT.write_to v ef = .ok ef' →
      ef'.written.length = ef.written.length + SHORT.size) ∧
    (LONG.size = 4 ∧ ∀ (v : LONG) (ef ef' : EndianFile),
      LONG.write_to v ef = .ok ef' →
      ef'.written.length = ef.written.length + LONG.size) ∧
    (RATIONAL.size = 8 ∧ ∀ (v : RATIONAL) (ef ef' : EndianFile),
      RATIONAL.write_to v ef = .ok ef' →
      ef'.written.length = ef.written.length + RATIONAL.size) ∧
    (SBYTE.size = 1 ∧ ∀ (v : SBYTE) (ef ef' : EndianFile),
      SBYTE.write_to v ef = .ok ef' →
      ef'.written.length = ef.written.length + SBYTE.size) ∧
    (UNDEFINED.size = 1 ∧ ∀ (v : UNDEFINED) (ef ef' : EndianFile),
      UNDEFINED.write_to v ef = .ok ef' →
      ef'.written.length = ef.written.length + UNDEFINED.size) ∧
    (SSHORT.size = 2 ∧ ∀ (v : SSHORT) (ef ef' : EndianFile),
      SSHORT.write_to v ef = .ok ef' →
      ef'.written.length = ef.written.length + SSHORT.size) ∧
    (SLONG.size = 4 ∧ ∀ (v : SLONG) (ef ef' : EndianFile),
      SLONG.write_to v ef = .ok ef' →
      ef'.written.length = ef.written.length + SLONG.size) ∧
    (SRATIONAL.size = 8 ∧ ∀ (v : SRATIONAL) (ef ef' : EndianFile),
      SRATIONAL.write_to v ef = .ok ef' →
      ef'.written.length = ef.written.length + SRATIONAL.size) ∧
    (FLOAT.size = 4 ∧ ∀ (v : FLOAT) (ef ef' : EndianFile),
      FLOAT.write_to v ef = .ok ef' →
      ef'.written.length = ef.written.length + FLOAT.size) ∧
    (DOUBLE.size = 8 ∧ ∀ (v : DOUBLE) (ef ef' : EndianFile),
      DOUBLE.write_to v ef = .ok ef' →
      ef'.written.length = ef.written.length + DOUBLE.size) ∧
    (IFD.size = 4 ∧ ∀ (v : IFD) (ef ef' : EndianFile),
      IFD.write_to v ef = .ok ef' →
      ef'.written.length = ef.written.length + IFD.size) := by
  refine ⟨⟨rfl, ?_⟩, ⟨rfl, ?_⟩, ⟨rfl, ?_⟩, ⟨rfl, ?_⟩, ⟨rfl, ?_⟩, ⟨rfl, ?_⟩,
    ⟨rfl, ?_⟩, ⟨rfl, ?_⟩, ⟨rfl, ?_⟩, ⟨rfl, ?_⟩, ⟨rfl, ?_⟩, ⟨rfl, ?_⟩,
    ⟨rfl, ?_⟩⟩
  all_goals intro v ef ef' h
  all_goals
    first
    | (rw [write_bytes_len h, encodeEndian_length]; try rfl)
    | (rw [(rational_ok h).1]; simp [encodeEndian_length, RATIONAL.size])
    | (rw [(srational_ok h).1]; simp [encodeEndian_length, SRATIONAL.size])

/-- Witness for claim C1: writing one BYTE to a fresh big-endian file
appends exactly one byte. -/
theorem claim_c1_witness :
    ∃ ef', BYTE.write_to ⟨7⟩ efMM = .ok ef' ∧
      ef'.written.length = efMM.written.length + BYTE.size := by
  have h : BYTE.write_to ⟨7⟩ efMM = .ok ⟨Endianness.MM, [7], none⟩ := rfl
  exact ⟨_, h, claim_c1.1.2 ⟨7⟩ efMM _ h⟩

/-- Claim C4: the 16-bit unsigned type has id 3 and element size 2,
SHORT single 5 yields exactly the one value SHORT 5, and writing SHORT 5
to a big-endian EndianFile emits exactly the bytes 00 05. -/
theorem claim_c4 :
    SHORT.id = 3 ∧ SHORT.size = 2 ∧
    SHORT.single 5 = .ok ⟨[SHORT.mk 5]⟩ ∧
    ∀ ef ef' : EndianFile, ef.byte_order = .MM →
      SHORT.write_to ⟨5⟩ ef = .ok ef' →
      ef'.written = ef.written ++ [0, 5] := by
  refine ⟨rfl, rfl, rfl, ?_⟩
  intro ef ef' hbo h
  rw [(write_bytes_ok h).1, hbo]
  rfl

/-- Witness for claim C4: writing SHORT 5 to a fresh big-endian file. -/
theorem claim_c4_witness :
    ∃ ef', SHORT.write_to ⟨5⟩ efMM = .ok ef' ∧
      ef'.written = efMM.written ++ [0, 5] := by
  have h : SHORT.write_to ⟨5⟩ efMM = .ok ⟨Endianness.MM, [0, 5], none⟩ := rfl
  exact ⟨_, h, claim_c4.2.2.2 efMM _ rfl h⟩

/-- Claim C6: RATIONAL write_to writes the numerator's four bytes before the
denominator's four bytes, and SRATIONAL likewise; if the underlying write of
the numerator fails with an I/O error, the call returns that error
immediately, for every denominator, without writing anything further. -/
theorem claim_c6 :
    (∀ (r : RATIONAL) (ef ef' : EndianFile), RATIONAL.write_to r ef = .ok ef' →
      ef'.written = ef.written ++ encodeEndian ef.byte_order 4 r.numerator ++
        encodeEndian ef.byte_order 4 r.denominator) ∧
    (∀ (r : RATIONAL) (ef : EndianFile) (e : IoError),
      ef.write_u32 r.numerator = .error e →
      RATIONAL.write_to r ef = .error e) ∧
    (∀ (r : SRATIONAL) (ef ef' : EndianFile), SRATIONAL.write_to r ef = .ok ef' →
      ef'.written = ef.written ++
        encodeEndian ef.byte_order 4 (r.numerator % 2 ^ 32).toNat ++
        encodeEndian ef.byte_order 4 (r.denominator % 2 ^ 32).toNat) ∧
    (∀ (r : SRATIONAL) (ef : EndianFile) (e : IoError),
      ef.write_i32 r.numerator = .error e →
      SRATIONAL.write_to r ef = .error e) := by
  refine ⟨?_, ?_, ?_, ?_⟩
  · intro r ef ef' h
    rw [(rational_ok h).1, List.append_assoc]
  · intro r ef e he
    unfold RATIONAL.write_to
    rw [he]
  · intro r ef ef' h
    rw [(srational_ok h).1, List.append_assoc]
  · intro r ef e he
    unfold SRATIONAL.write_to
    rw [he]

/-- Witness for claim C6: over a destination of capacity two the numerator's
write fails and the whole call returns that error; over an unbounded
big-endian destination the eight bytes appear, numerator first. -/
theorem claim_c6_witness :
    RATIONAL.write_to ⟨7, 9⟩ efCap2 = .error .writeFailed ∧
    ∃ ef', RATIONAL.write_to ⟨7, 9⟩ efMM = .ok ef' ∧
      ef'.written = efMM.written ++ encodeEndian efMM.byte_order 4 7 ++
        encodeEndian efMM.byte_order 4 9 := by
  constructor
  · exact claim_c6.2.1 ⟨7, 9⟩ efCap2 .writeFailed rfl
  · have h : RATIONAL.write_to ⟨7, 9⟩ efMM =
        .ok ⟨Endianness.MM, [0, 0, 0, 7, 0, 0, 0, 9], none⟩ := rfl
    exact ⟨_, h, claim_c6.1 ⟨7, 9⟩ efMM _ h⟩

/-- Claim C7: each scalar write_to is deterministic with respect to the
sink's endianness setting: two successful calls on EndianFiles with equal
byte orders append identical byte sequences. -/
theorem claim_c7 :
    (∀ (v : BYTE) (ea eb ea' eb' : EndianFile), ea.byte_order = eb.byte_order →
      BYTE.write_to v ea = .ok ea' → BYTE.write_to v eb = .ok eb' →
      ea'.written.drop ea.written.length = eb'.written.drop eb.written.length) ∧
    (∀ (v : ASCII) (ea eb ea' eb' : EndianFile), ea.byte_order = eb.byte_order →
      ASCII.write_to v ea = .ok ea' → ASCII.write_to v eb = .ok eb' →
      ea'.written.drop ea.written.length = eb'.written.drop eb.written.length) ∧
    (∀ (v : SHORT) (ea eb ea' eb' : EndianFile), ea.byte_order = eb.byte_order →
      SHORT.write_to v ea = .ok ea' → SHORT.write_to v eb = .ok eb' →
      ea'.written.drop ea.written.length = eb'.written.drop eb.written.length) ∧
    (∀ (v : LONG) (ea eb ea' eb' : EndianFile), ea.byte_order = eb.byte_order →
      LONG.write_to v ea = .ok ea' → LONG.write_to v eb = .ok eb' →
      ea'.written.drop ea.written.length = eb'.written.drop eb.written.length) ∧
    (∀ (v : RATIONAL) (ea eb ea' eb' : EndianFile), ea.byte_order = eb.byte_order →
      RATIONAL.write_to v ea = .ok ea' → RATIONAL.write_to v eb = .ok eb' →
      ea'.written.drop ea.written.length = eb'.written.drop eb.written.length) ∧
    (∀ (v : SBYTE) (ea eb ea' eb' : EndianFile), ea.byte_order = eb.byte_order →
      SBYTE.write_to v ea = .ok ea' → SBYTE.write_to v eb = .ok eb' →
      ea'.written.drop ea.written.length = eb'.written.drop eb.written.length) ∧
    (∀ (v : UNDEFINED) (ea eb ea' eb' : EndianFile), ea.byte_order = eb.byte_order →
      UNDEFINED.write_to v ea = .ok ea' → UNDEFINED.write_to v eb = .ok eb' →
      ea'.written.drop ea.written.length = eb'.written.drop eb.written.length) ∧
    (∀ (v : SSHORT) (ea eb ea' eb' : EndianFile), ea.byte_order = eb.byte_order →
      SSHORT.write_to v ea = .ok ea' → SSHORT.write_to v eb = .ok eb' →
      ea'.written.drop ea.written.length = eb'.written.drop eb.written.length) ∧
    (∀ (v : SLONG) (ea eb ea' eb' : EndianFile), ea.byte_order = eb.byte_order →
      SLONG.write_to v ea = .ok ea' → SLONG.write_to v eb = .ok eb' →
      ea'.written.drop ea.written.length = eb'.written.drop eb.written.length) ∧
    (∀ (v : SRATIONAL) (ea eb ea' eb' : EndianFile), ea.byte_order = eb.byte_order →
      SRATIONAL.write_to v ea = .ok ea' → SRATIONAL.write_to v eb = .ok eb' →
      ea'.written.drop ea.written.length = eb'.written.drop eb.written.length) ∧
    (∀ (v : FLOAT) (ea eb ea' eb' : EndianFile), ea.byte_order = eb.byte_order →
      FLOAT.write_to v ea = .ok ea' → FLOAT.write_to v eb = .ok eb' →
      ea'.written.drop ea.written.length = eb'.written.drop eb.written.length) ∧
    (∀ (v : DOUBLE) (ea eb ea' eb' : EndianFile), ea.byte_order = eb.byte_order →
      DOUBLE.write_to v ea = .ok ea' → DOUBLE.write_to v eb = .ok eb' →
      ea'.written.drop ea.written.length = eb'.written.drop eb.written.length) ∧
    (∀ (v : IFD) (ea eb ea' eb' : EndianFile), ea.byte_order = eb.byte_order →
      IFD.write_to v ea = .ok ea' → IFD.write_to v eb = .ok eb' →
      ea'.written.drop ea.written.length = eb'.written.drop eb.written.length) := by
  refine ⟨?_, ?_, ?_, ?_, ?_, ?_, ?_, ?_, ?_, ?_, ?_, ?_, ?_⟩
  all_goals intro v ea eb ea' eb' hbo h1 h2
  all_goals
    first
    | rw [write_bytes_drop h1, write_bytes_drop h2, hbo]
    | rw [(rational_ok h1).1, (rational_ok h2).1, List.drop_left,
        List.drop_left, hbo]
    | rw [(srational_ok h1).1, (srational_ok h2).1, List.drop_left,
        List.drop_left, hbo]

/-- Witness for claim C7: SHORT 513 appended to two big-endian files with
different prior contents yields the same two appended bytes. -/
theorem claim_c7_witness :
    ∃ ea' eb', SHORT.write_to ⟨513⟩ efMM = .ok ea' ∧
      SHORT.write_to ⟨513⟩ efMM2 = .ok eb' ∧
      ea'.written.drop efMM.written.length =
        eb'.written.drop efMM2.written.length := by
  have h1 : SHORT.write_to ⟨513⟩ efMM = .ok ⟨Endianness.MM, [2, 1], none⟩ := rfl
  have h2 : SHORT.write_to ⟨513⟩ efMM2 =
      .ok ⟨Endianness.MM, [9, 9, 2, 1], some 10⟩ := rfl
  exact ⟨_, _, h1, h2, claim_c7.2.2.1 ⟨513⟩ efMM efMM2 _ _ rfl h1 h2⟩

/-- Claim C8: every value set produced by the ASCII constructors ends with
the NUL value ASCII 0; the output keeps the input's length when the last
input byte is already 0 and otherwise grows by exactly one. -/
theorem claim_c8 :
    (∀ (bs : List Nat) (tv : TiffTypeValues ASCII), ASCII.values bs = .ok tv →
      tv.values.getLast? = some (ASCII.mk 0) ∧
      tv.values.length =
        (if bs.getLast? = some 0 then bs.length else bs.length + 1)) ∧
    (∀ (s : List Nat) (tv : TiffTypeValues ASCII), ASCII.from_str s = .ok tv →
      tv.values.getLast? = some (ASCII.mk 0) ∧
      tv.values.length =
        (if s.getLast? = some 0 then s.length else s.length + 1)) := by
  constructor
  · intro bs tv h
    exact ascii_values_last h
  · intro s tv h
    simp only [ASCII.from_str] at h
    split at h
    · cases h
    · rename_i bytes heq
      obtain ⟨hbs, _⟩ := asciiFromChars_ok heq
      subst hbs
      exact ascii_values_last h

/-- Witness for claim C8: the single byte 65 yields the two values
ASCII 65 and the appended NUL. -/
theorem claim_c8_witness :
    ∃ tv, ASCII.values [65] = .ok tv ∧
      tv.values.getLast? = some (ASCII.mk 0) ∧ tv.values.length = 2 := by
  have h : ASCII.values [65] = .ok ⟨[ASCII.mk 65, ASCII.mk 0]⟩ := rfl
  obtain ⟨h1, h2⟩ := claim_c8.1 [65] _ h
  refine ⟨_, h, h1, ?_⟩
  rw [h2]
  decide

end Tiff
